import Mathlib

/-!
Shallow embedding of `src/core/lib/security/security_connector/ssl_utils.cc`
(trust-identity resolution and root-of-trust bootstrap subsystem).

External collaborators (the TSI crypto engine, file I/O, the global
configuration values, the registered roots-override callback and the OS
trust store) are modelled as explicit inputs, so every function of the
source file becomes a pure Lean function of those inputs.  Byte strings
are `List Nat`; C strings appearing as property names are `String`;
host names handed to the name matcher are `List Char` (the source
manipulates them character-wise via `StringView`).
-/

/-- `grpc_ssl_roots_override_result` (external enum): outcome reported by
the registered roots-override callback. -/
inductive SslRootsOverrideResult
  | ok
  | failPermanently
  | fail
deriving DecidableEq, Repr

/-- One invocation of the registered `grpc_ssl_roots_override_callback`:
on `ok` the callback hands back a C string of PEM bytes (modelled as the
byte list the callback wrote; `strlen` semantics cut it at the first
zero byte when the code copies it). -/
inductive RootsOverrideOutcome
  | ok (pem : List Nat)
  | fail
  | failPermanently
deriving DecidableEq, Repr

/-- Enum value the callback returns, per `RootsOverrideOutcome`. -/
def overrideOutcomeEnum : RootsOverrideOutcome → SslRootsOverrideResult
  | .ok _ => .ok
  | .fail => .fail
  | .failPermanently => .failPermanently

/-- The process environment `DefaultSslRootStore::ComputePemRootCerts`
reads: the two global configuration values, the file system
(`grpc_load_file` with null-termination; `none` is an I/O error), the
registered override callback (`none` when no callback is registered),
and the OS trust store result `LoadSystemRootCerts()`. -/
structure RootsEnv where
  /-- `GPR_GLOBAL_CONFIG_GET(grpc_not_use_system_ssl_roots)` -/
  notUseSystemRoots : Bool
  /-- `GPR_GLOBAL_CONFIG_GET(grpc_default_ssl_roots_file_path)` -/
  defaultRootsFilePath : String
  /-- `grpc_load_file(path, 1, &result)`: loaded bytes, `none` on error -/
  loadFile : String → Option (List Nat)
  /-- `ssl_roots_override_cb` and what it does when invoked -/
  rootsOverrideCb : Option RootsOverrideOutcome
  /-- `LoadSystemRootCerts()` (possibly empty) -/
  systemRootCerts : List Nat

/-- `installed_roots_path` constant (no `INSTALL_PREFIX`). -/
def installed_roots_path : String := "/usr/share/grpc/roots.pem"

/-- Step 1 of `ComputePemRootCerts` (ssl_utils.cc:423-428): if the
configured roots file path is non-empty, load it; an I/O failure is
logged and leaves the result empty. -/
def rootsStep1 (env : RootsEnv) : List Nat :=
  if 0 < env.defaultRootsFilePath.length then
    (env.loadFile env.defaultRootsFilePath).getD []
  else []

/-- `ovrd_res` after step 2 (ssl_utils.cc:430-441): initialized to
`GRPC_SSL_ROOTS_OVERRIDE_FAIL`; the callback is invoked only when the
result so far is empty and a callback is registered. -/
def rootsOvrdRes (env : RootsEnv) : SslRootsOverrideResult :=
  if rootsStep1 env = [] then
    match env.rootsOverrideCb with
    | some o => overrideOutcomeEnum o
    | none => .fail
  else .fail

/-- Result bytes after step 2 (ssl_utils.cc:430-441): when the callback
reports OK, the code copies `strlen(pem_root_certs) + 1` bytes, i.e. the
bytes before the first zero plus the zero terminator. -/
def rootsStep2 (env : RootsEnv) : List Nat :=
  if rootsStep1 env = [] then
    match env.rootsOverrideCb with
    | some (.ok pem) => pem.takeWhile (fun b => b ≠ 0) ++ [0]
    | _ => []
  else rootsStep1 env

/-- Result bytes after step 3 (ssl_utils.cc:442-445): the OS trust store
is queried when the result so far is empty and the disabling flag is
off. -/
def rootsStep3 (env : RootsEnv) : List Nat :=
  if rootsStep2 env = [] ∧ env.notUseSystemRoots = false then
    env.systemRootCerts
  else rootsStep2 env

/-- `DefaultSslRootStore::ComputePemRootCerts` (ssl_utils.cc:418-453):
step 4 loads the installed fallback file when the result so far is empty
and the override callback did not report fail-permanently. -/
def ComputePemRootCerts (env : RootsEnv) : List Nat :=
  if rootsStep3 env = [] ∧ rootsOvrdRes env ≠ .failPermanently then
    (env.loadFile installed_roots_path).getD []
  else rootsStep3 env

/-- `DefaultSslRootStore::GetPemRootCerts` (ssl_utils.cc:410-416): after
exactly-once initialization, `nullptr` when the computed slice is empty,
otherwise the computed bytes. -/
def GetPemRootCerts (env : RootsEnv) : Option (List Nat) :=
  if ComputePemRootCerts env = [] then none else some (ComputePemRootCerts env)

/-- `tsi_ssl_root_certs_store` handle, opaque to this file: created by
the engine from non-empty PEM bytes in `InitRootStoreOnce`. -/
structure RootStoreHandle where
  pem : List Nat
deriving DecidableEq, Repr

/-- `DefaultSslRootStore::GetRootStore` (ssl_utils.cc:405-408, 460-467):
the parsed store exists only when the computed bytes are non-empty. -/
def GetRootStore (env : RootsEnv) : Option RootStoreHandle :=
  if ComputePemRootCerts env = [] then none else some ⟨ComputePemRootCerts env⟩

/-- `tsi_peer_property`: a name (possibly null) and value bytes. -/
structure TsiPeerProperty where
  name : Option String
  value : List Nat
deriving DecidableEq, Repr

/-- `tsi_peer`: `property_count` is the list length. -/
structure TsiPeer where
  properties : List TsiPeerProperty
deriving DecidableEq, Repr

/-- `grpc_auth_property`: a name and value bytes. -/
structure AuthProperty where
  name : String
  value : List Nat
deriving DecidableEq, Repr

/-- `grpc_auth_context`: ordered property collection plus the designated
peer-identity property name, if any. -/
structure AuthContext where
  properties : List AuthProperty
  peerIdentityPropertyName : Option String
deriving DecidableEq, Repr

/-- Modelled from the spec: name constant of the transport-security-type
marker property (`GRPC_TRANSPORT_SECURITY_TYPE_PROPERTY_NAME`, from a
header not under `src/`).  The claims depend only on it being distinct
from the SAN/CN/PEM-cert context property names. -/
def GRPC_TRANSPORT_SECURITY_TYPE_PROPERTY_NAME : String :=
  "transport_security_type"

/-- Modelled from the spec: the SSL transport security type value
(`GRPC_SSL_TRANSPORT_SECURITY_TYPE`, header constant), as bytes. -/
def GRPC_SSL_TRANSPORT_SECURITY_TYPE : List Nat := [115, 115, 108]

/-- Modelled from the spec: context property name for the subject common
name (`GRPC_X509_CN_PROPERTY_NAME`, header constant). -/
def GRPC_X509_CN_PROPERTY_NAME : String := "x509_common_name"

/-- Modelled from the spec: context property name for the subject
alternative name (`GRPC_X509_SAN_PROPERTY_NAME`, header constant). -/
def GRPC_X509_SAN_PROPERTY_NAME : String := "x509_subject_alternative_name"

/-- Modelled from the spec: context property name for the raw PEM
certificate (`GRPC_X509_PEM_CERT_PROPERTY_NAME`, header constant). -/
def GRPC_X509_PEM_CERT_PROPERTY_NAME : String := "x509_pem_cert"

/-- Modelled from the spec: context property name for the session-reused
flag (`GRPC_SSL_SESSION_REUSED_PROPERTY`, header constant). -/
def GRPC_SSL_SESSION_REUSED_PROPERTY : String := "ssl_session_reused"

/-- Modelled from the spec: peer property name for the subject common
name (`TSI_X509_SUBJECT_COMMON_NAME_PEER_PROPERTY`, header constant). -/
def TSI_X509_SUBJECT_COMMON_NAME_PEER_PROPERTY : String :=
  "x509_subject_common_name"

/-- Modelled from the spec: peer property name for the subject
alternative name (`TSI_X509_SUBJECT_ALTERNATIVE_NAME_PEER_PROPERTY`). -/
def TSI_X509_SUBJECT_ALTERNATIVE_NAME_PEER_PROPERTY : String :=
  "x509_subject_alternative_name"

/-- Modelled from the spec: peer property name for the raw PEM
certificate (`TSI_X509_PEM_CERT_PROPERTY`, header constant). -/
def TSI_X509_PEM_CERT_PROPERTY : String := "x509_pem_cert"

/-- Modelled from the spec: peer property name for the session-reused
flag (`TSI_SSL_SESSION_REUSED_PEER_PROPERTY`, header constant). -/
def TSI_SSL_SESSION_REUSED_PEER_PROPERTY : String := "ssl_session_reused"

/-- Property-building component of the loop of
`grpc_ssl_peer_to_auth_context` (ssl_utils.cc:207-231): the sequence of
`grpc_auth_context_add_property` calls, in order.  Properties with a
null name or an unrecognized name are skipped. -/
def sslPeerAuthProps : List TsiPeerProperty → List AuthProperty
  | [] => []
  | p :: rest =>
    match p.name with
    | none => sslPeerAuthProps rest
    | some n =>
      if n = TSI_X509_SUBJECT_COMMON_NAME_PEER_PROPERTY then
        ⟨GRPC_X509_CN_PROPERTY_NAME, p.value⟩ :: sslPeerAuthProps rest
      else if n = TSI_X509_SUBJECT_ALTERNATIVE_NAME_PEER_PROPERTY then
        ⟨GRPC_X509_SAN_PROPERTY_NAME, p.value⟩ :: sslPeerAuthProps rest
      else if n = TSI_X509_PEM_CERT_PROPERTY then
        ⟨GRPC_X509_PEM_CERT_PROPERTY_NAME, p.value⟩ :: sslPeerAuthProps rest
      else if n = TSI_SSL_SESSION_REUSED_PEER_PROPERTY then
        ⟨GRPC_SSL_SESSION_REUSED_PROPERTY, p.value⟩ :: sslPeerAuthProps rest
      else sslPeerAuthProps rest

/-- Identity-designation component of the same loop
(ssl_utils.cc:198-231): `peer_identity_property_name` starts `nullptr`;
a CN property designates only when nothing is designated yet, a SAN
property always designates. -/
def sslPeerIdentity : List TsiPeerProperty → Option String → Option String
  | [], ident => ident
  | p :: rest, ident =>
    match p.name with
    | none => sslPeerIdentity rest ident
    | some n =>
      if n = TSI_X509_SUBJECT_COMMON_NAME_PEER_PROPERTY then
        sslPeerIdentity rest
          (if ident = none then some GRPC_X509_CN_PROPERTY_NAME else ident)
      else if n = TSI_X509_SUBJECT_ALTERNATIVE_NAME_PEER_PROPERTY then
        sslPeerIdentity rest (some GRPC_X509_SAN_PROPERTY_NAME)
      else sslPeerIdentity rest ident

/-- `grpc_ssl_peer_to_auth_context` (ssl_utils.cc:195-237): the
transport-security-type marker property is added first, then the peer
properties are translated in one pass; at the end the designated
identity name, if any, is set on the context. -/
def grpc_ssl_peer_to_auth_context (peer : TsiPeer) : AuthContext :=
  { properties :=
      ⟨GRPC_TRANSPORT_SECURITY_TYPE_PROPERTY_NAME,
        GRPC_SSL_TRANSPORT_SECURITY_TYPE⟩ :: sslPeerAuthProps peer.properties,
    peerIdentityPropertyName := sslPeerIdentity peer.properties none }

/-- Body of the second pass of
`grpc_shallow_peer_from_ssl_auth_context` (ssl_utils.cc:263-274): a
context property named SAN/CN/PEM-cert becomes one written
`tsi_peer_property` (name translated back, value bytes aliased via
`add_shallow_auth_property_to_peer`); everything else is skipped. -/
def shallowTranslate (prop : AuthProperty) : Option TsiPeerProperty :=
  if prop.name = GRPC_X509_SAN_PROPERTY_NAME then
    some ⟨some TSI_X509_SUBJECT_ALTERNATIVE_NAME_PEER_PROPERTY, prop.value⟩
  else if prop.name = GRPC_X509_CN_PROPERTY_NAME then
    some ⟨some TSI_X509_SUBJECT_COMMON_NAME_PEER_PROPERTY, prop.value⟩
  else if prop.name = GRPC_X509_PEM_CERT_PROPERTY_NAME then
    some ⟨some TSI_X509_PEM_CERT_PROPERTY, prop.value⟩
  else none

/-- `grpc_shallow_peer_from_ssl_auth_context` (ssl_utils.cc:248-277):
the second pass iterates the context properties in order and writes the
translated ones into the peer's property array. -/
def grpc_shallow_peer_from_ssl_auth_context (ctx : AuthContext) : TsiPeer :=
  { properties := ctx.properties.filterMap shallowTranslate }

/-- `max_num_props` from the counting pass of
`grpc_shallow_peer_from_ssl_auth_context` (ssl_utils.cc:250-257): the
iterator visits every property of the context. -/
def shallowPeerAllocSlots (ctx : AuthContext) : Nat :=
  ctx.properties.length

/-- Number of `tsi_peer_property` entries the second pass actually
writes (each `add_shallow_auth_property_to_peer` call increments
`peer.property_count`, ssl_utils.cc:242). -/
def shallowPeerWrittenCount (ctx : AuthContext) : Nat :=
  (grpc_shallow_peer_from_ssl_auth_context ctx).properties.length

/-- Split a character list at the first occurrence of `c` (both halves
exclusive of `c`); `none` when `c` does not occur. -/
def splitAtFirstChar (c : Char) : List Char → Option (List Char × List Char)
  | [] => none
  | x :: xs =>
    if x = c then some ([], xs)
    else
      match splitAtFirstChar c xs with
      | some p => some (x :: p.1, p.2)
      | none => none

/-- Split a character list at the last occurrence of `c`. -/
def splitAtLastChar (c : Char) (l : List Char) : Option (List Char × List Char) :=
  match splitAtFirstChar c l.reverse with
  | some p => some (p.2.reverse, p.1.reverse)
  | none => none

/-- Modelled from the spec: `grpc_core::SplitHostPort`
(src/core/lib/gprpp/host_port.cc, not under `src/`).  Parses a
`host[:port]` or bracketed-IPv6 `[host]` / `[host]:port` string; an
unbracketed name whose pre-colon part itself holds a colon is a bare
IPv6 address taken whole as the host; malformed input returns the
original string as host with an empty port (never fails). -/
def SplitHostPort (name : List Char) : List Char × List Char :=
  match name with
  | '[' :: rest =>
    (match splitAtFirstChar ']' rest with
     | some (host, after) =>
       (match after with
        | [] => (host, [])
        | ':' :: port => (host, port)
        | _ => (name, []))
     | none => (name, []))
  | _ =>
    (match splitAtLastChar ':' name with
     | some (host, port) =>
       if host.contains ':' then (name, []) else (host, port)
     | none => (name, []))

/-- `grpc_ssl_host_matches_name` (ssl_utils.cc:171-184): splits off the
port, returns 0 when the split host is empty, then removes the suffix
from the first `%` on and hands the rest to `tsi_ssl_peer_matches_name`
(the engine, modelled as the parameter `matchFn`). -/
def grpc_ssl_host_matches_name (matchFn : TsiPeer → List Char → Bool)
    (peer : TsiPeer) (peerName : List Char) : Bool :=
  let allocatedName := (SplitHostPort peerName).1
  if allocatedName = [] then false
  else matchFn peer (allocatedName.takeWhile (fun ch => ch ≠ '%'))

/-- The claim's reading of `hostMatchesPeerName`, written from the
spec's words for comparison with `grpc_ssl_host_matches_name`: split off
the port, THEN truncate at the first `%`, and return false when the
host resulting from both operations is empty. -/
def hostMatchesPeerNameSpec (matchFn : TsiPeer → List Char → Bool)
    (peer : TsiPeer) (peerName : List Char) : Bool :=
  let host := ((SplitHostPort peerName).1).takeWhile (fun ch => ch ≠ '%')
  if host = [] then false else matchFn peer host

/-- `grpc_security_status` values used here. -/
inductive GrpcSecurityStatus
  | ok
  | error
deriving DecidableEq, Repr

/-- `grpc_ssl_check_alpn` (ssl_utils.cc:122-124): unconditionally
`GRPC_ERROR_NONE`. -/
def grpc_ssl_check_alpn (peer : TsiPeer) : Option String :=
  none

/-- `grpc_ssl_check_call_host` (ssl_utils.cc:140-158).  The engine's
`tsi_ssl_peer_matches_name` is the parameter `matchFn`; the result pairs
the function's return value with the error written through the `error`
out-parameter (`none` when no error is written). -/
def grpc_ssl_check_call_host (matchFn : TsiPeer → List Char → Bool)
    (host targetName overriddenTargetName : List Char)
    (authContext : AuthContext) : Bool × Option String :=
  let status0 := GrpcSecurityStatus.error
  let peer := grpc_shallow_peer_from_ssl_auth_context authContext
  let status1 :=
    if grpc_ssl_host_matches_name matchFn peer host then GrpcSecurityStatus.ok
    else status0
  let status2 :=
    if overriddenTargetName ≠ [] ∧ host = targetName then GrpcSecurityStatus.ok
    else status1
  let err :=
    if status2 ≠ GrpcSecurityStatus.ok then
      some "call host does not match SSL server name"
    else none
  (true, err)

/-- `tsi_result` as the factory-creation calls use it: the code only
distinguishes `TSI_OK` from everything else. -/
inductive TsiResult
  | ok
  | error
deriving DecidableEq, Repr

/-- `tsi_ssl_pem_key_cert_pair`: both fields may be null. -/
structure SslPemKeyCertPair where
  privateKey : Option String
  certChain : Option String
deriving DecidableEq, Repr

/-- `tsi_ssl_client_handshaker_options` as filled by
`grpc_ssl_tsi_client_handshaker_factory_init` (session cache handles are
opaque; a `Nat` stands for the cache identity). -/
structure ClientHandshakerOptions where
  pemRootCerts : List Nat
  rootStore : Option RootStoreHandle
  alpnProtocols : List String
  pemKeyCertPair : Option SslPemKeyCertPair
  cipherSuites : String
  sessionCache : Option Nat
deriving DecidableEq, Repr

/-- `grpc_ssl_tsi_client_handshaker_factory_init` (ssl_utils.cc:283-325).
The engine call `tsi_create_ssl_client_handshaker_factory_with_options`
is the parameter `engine`; `alpnProtocols` stands for
`grpc_fill_alpn_protocol_strings` and `cipherSuites` for
`grpc_get_ssl_cipher_suites()`.  The second component of the result is
the options block handed to the engine, `none` when the engine was never
invoked (so no factory can have been produced). -/
def grpc_ssl_tsi_client_handshaker_factory_init (env : RootsEnv)
    (engine : ClientHandshakerOptions → TsiResult)
    (alpnProtocols : List String) (cipherSuites : String)
    (pemKeyCertPair : Option SslPemKeyCertPair)
    (pemRootCerts : Option (List Nat))
    (sslSessionCache : Option Nat) :
    GrpcSecurityStatus × Option ClientHandshakerOptions :=
  let rootsChoice : Option (List Nat × Option RootStoreHandle) :=
    match pemRootCerts with
    | none =>
      (match GetPemRootCerts env with
       | none => none
       | some rc => some (rc, GetRootStore env))
    | some rc => some (rc, none)
  match rootsChoice with
  | none => (GrpcSecurityStatus.error, none)
  | some (rootCerts, rootStore) =>
    let hasKeyCertPair :=
      match pemKeyCertPair with
      | some p => p.privateKey.isSome && p.certChain.isSome
      | none => false
    let options : ClientHandshakerOptions :=
      { pemRootCerts := rootCerts
        rootStore := rootStore
        alpnProtocols := alpnProtocols
        pemKeyCertPair := if hasKeyCertPair then pemKeyCertPair else none
        cipherSuites := cipherSuites
        sessionCache := sslSessionCache }
    if engine options = TsiResult.ok then (GrpcSecurityStatus.ok, some options)
    else (GrpcSecurityStatus.error, some options)

/-! ## Helper lemmas -/

theorem sslPeerIdentity_cons_none (v : List Nat) (rest : List TsiPeerProperty)
    (ident : Option String) :
    sslPeerIdentity (⟨none, v⟩ :: rest) ident = sslPeerIdentity rest ident := rfl

theorem sslPeerIdentity_cons_some (n : String) (v : List Nat)
    (rest : List TsiPeerProperty) (ident : Option String) :
    sslPeerIdentity (⟨some n, v⟩ :: rest) ident =
      if n = TSI_X509_SUBJECT_COMMON_NAME_PEER_PROPERTY then
        sslPeerIdentity rest
          (if ident = none then some GRPC_X509_CN_PROPERTY_NAME else ident)
      else if n = TSI_X509_SUBJECT_ALTERNATIVE_NAME_PEER_PROPERTY then
        sslPeerIdentity rest (some GRPC_X509_SAN_PROPERTY_NAME)
      else sslPeerIdentity rest ident := rfl

theorem sslPeerIdentity_keeps_san (props : List TsiPeerProperty) :
    sslPeerIdentity props (some GRPC_X509_SAN_PROPERTY_NAME)
      = some GRPC_X509_SAN_PROPERTY_NAME := by
  induction props with
  | nil => rfl
  | cons p rest ih =>
    obtain ⟨pname, pvalue⟩ := p
    cases pname with
    | none => rw [sslPeerIdentity_cons_none]; exact ih
    | some n =>
      rw [sslPeerIdentity_cons_some]
      by_cases h1 : n = TSI_X509_SUBJECT_COMMON_NAME_PEER_PROPERTY
      · rw [if_pos h1]
        have : (some GRPC_X509_SAN_PROPERTY_NAME = (none : Option String)) = False := by
          simp
        rw [if_neg (by simp)]
        exact ih
      · by_cases h2 : n = TSI_X509_SUBJECT_ALTERNATIVE_NAME_PEER_PROPERTY
        · rw [if_neg h1, if_pos h2]; exact ih
        · rw [if_neg h1, if_neg h2]; exact ih

theorem sslPeerIdentity_san_mem (props : List TsiPeerProperty) :
    ∀ ident : Option String,
      (∃ p ∈ props, p.name = some TSI_X509_SUBJECT_ALTERNATIVE_NAME_PEER_PROPERTY) →
      sslPeerIdentity props ident = some GRPC_X509_SAN_PROPERTY_NAME := by
  induction props with
  | nil =>
    intro ident h
    rcases h with ⟨p, hp, _⟩
    exact absurd hp (List.not_mem_nil p)
  | cons p rest ih =>
    intro ident h
    rcases h with ⟨q, hq, hname⟩
    obtain ⟨pname, pvalue⟩ := p
    cases pname with
    | none =>
      rw [sslPeerIdentity_cons_none]
      rcases List.mem_cons.mp hq with hhead | htail
      · subst hhead; exact absurd hname (by simp)
      · exact ih ident ⟨q, htail, hname⟩
    | some n =>
      rw [sslPeerIdentity_cons_some]
      by_cases h1 : n = TSI_X509_SUBJECT_COMMON_NAME_PEER_PROPERTY
      · rw [if_pos h1]
        rcases List.mem_cons.mp hq with hhead | htail
        · subst hhead
          simp only [TsiPeerProperty.mk.injEq] at hname
          rw [h1] at hname
          exact absurd hname.symm (by decide)
        · exact ih _ ⟨q, htail, hname⟩
      · by_cases h2 : n = TSI_X509_SUBJECT_ALTERNATIVE_NAME_PEER_PROPERTY
        · rw [if_neg h1, if_pos h2]
          exact sslPeerIdentity_keeps_san rest
        · rw [if_neg h1, if_neg h2]
          rcases List.mem_cons.mp hq with hhead | htail
          · subst hhead
            simp only [Option.some.injEq] at hname
            exact absurd hname h2
          · exact ih ident ⟨q, htail, hname⟩

theorem sslPeerIdentity_cn_source (props : List TsiPeerProperty) :
    ∀ ident : Option String,
      sslPeerIdentity props ident = some GRPC_X509_CN_PROPERTY_NAME →
      ident = some GRPC_X509_CN_PROPERTY_NAME ∨
        ∃ p ∈ props, p.name = some TSI_X509_SUBJECT_COMMON_NAME_PEER_PROPERTY := by
  induction props with
  | nil => intro ident h; exact Or.inl h
  | cons p rest ih =>
    intro ident h
    obtain ⟨pname, pvalue⟩ := p
    cases pname with
    | none =>
      rw [sslPeerIdentity_cons_none] at h
      rcases ih ident h with hl | ⟨q, hq, hn⟩
      · exact Or.inl hl
      · exact Or.inr ⟨q, List.mem_cons_of_mem _ hq, hn⟩
    | some n =>
      rw [sslPeerIdentity_cons_some] at h
      by_cases h1 : n = TSI_X509_SUBJECT_COMMON_NAME_PEER_PROPERTY
      · refine Or.inr ⟨⟨some n, pvalue⟩, List.mem_cons_self _ _, ?_⟩
        simp [h1]
      · by_cases h2 : n = TSI_X509_SUBJECT_ALTERNATIVE_NAME_PEER_PROPERTY
        · rw [if_neg h1, if_pos h2, sslPeerIdentity_keeps_san] at h
          exact absurd (Option.some.inj h) (by decide)
        · rw [if_neg h1, if_neg h2] at h
          rcases ih ident h with hl | ⟨q, hq, hn⟩
          · exact Or.inl hl
          · exact Or.inr ⟨q, List.mem_cons_of_mem _ hq, hn⟩

theorem sslPeerAuthProps_cons_none (v : List Nat) (rest : List TsiPeerProperty) :
    sslPeerAuthProps (⟨none, v⟩ :: rest) = sslPeerAuthProps rest := rfl

theorem sslPeerAuthProps_cons_some (n : String) (v : List Nat)
    (rest : List TsiPeerProperty) :
    sslPeerAuthProps (⟨some n, v⟩ :: rest) =
      if n = TSI_X509_SUBJECT_COMMON_NAME_PEER_PROPERTY then
        ⟨GRPC_X509_CN_PROPERTY_NAME, v⟩ :: sslPeerAuthProps rest
      else if n = TSI_X509_SUBJECT_ALTERNATIVE_NAME_PEER_PROPERTY then
        ⟨GRPC_X509_SAN_PROPERTY_NAME, v⟩ :: sslPeerAuthProps rest
      else if n = TSI_X509_PEM_CERT_PROPERTY then
        ⟨GRPC_X509_PEM_CERT_PROPERTY_NAME, v⟩ :: sslPeerAuthProps rest
      else if n = TSI_SSL_SESSION_REUSED_PEER_PROPERTY then
        ⟨GRPC_SSL_SESSION_REUSED_PROPERTY, v⟩ :: sslPeerAuthProps rest
      else sslPeerAuthProps rest := rfl

theorem shallowTranslate_cn (v : List Nat) :
    shallowTranslate ⟨GRPC_X509_CN_PROPERTY_NAME, v⟩
      = some ⟨some TSI_X509_SUBJECT_COMMON_NAME_PEER_PROPERTY, v⟩ := by
  have h : GRPC_X509_CN_PROPERTY_NAME ≠ GRPC_X509_SAN_PROPERTY_NAME := by decide
  simp [shallowTranslate, h]

theorem shallowTranslate_san (v : List Nat) :
    shallowTranslate ⟨GRPC_X509_SAN_PROPERTY_NAME, v⟩
      = some ⟨some TSI_X509_SUBJECT_ALTERNATIVE_NAME_PEER_PROPERTY, v⟩ := by
  simp [shallowTranslate]

theorem shallowTranslate_pem (v : List Nat) :
    shallowTranslate ⟨GRPC_X509_PEM_CERT_PROPERTY_NAME, v⟩
      = some ⟨some TSI_X509_PEM_CERT_PROPERTY, v⟩ := by
  have h1 : GRPC_X509_PEM_CERT_PROPERTY_NAME ≠ GRPC_X509_SAN_PROPERTY_NAME := by
    decide
  have h2 : GRPC_X509_PEM_CERT_PROPERTY_NAME ≠ GRPC_X509_CN_PROPERTY_NAME := by
    decide
  simp [shallowTranslate, h1, h2]

theorem shallowTranslate_session (v : List Nat) :
    shallowTranslate ⟨GRPC_SSL_SESSION_REUSED_PROPERTY, v⟩ = none := by
  have h1 : GRPC_SSL_SESSION_REUSED_PROPERTY ≠ GRPC_X509_SAN_PROPERTY_NAME := by
    decide
  have h2 : GRPC_SSL_SESSION_REUSED_PROPERTY ≠ GRPC_X509_CN_PROPERTY_NAME := by
    decide
  have h3 : GRPC_SSL_SESSION_REUSED_PROPERTY ≠ GRPC_X509_PEM_CERT_PROPERTY_NAME := by
    decide
  simp [shallowTranslate, h1, h2, h3]

theorem shallowTranslate_transport :
    shallowTranslate ⟨GRPC_TRANSPORT_SECURITY_TYPE_PROPERTY_NAME,
        GRPC_SSL_TRANSPORT_SECURITY_TYPE⟩ = none := by
  have h1 : GRPC_TRANSPORT_SECURITY_TYPE_PROPERTY_NAME
      ≠ GRPC_X509_SAN_PROPERTY_NAME := by decide
  have h2 : GRPC_TRANSPORT_SECURITY_TYPE_PROPERTY_NAME
      ≠ GRPC_X509_CN_PROPERTY_NAME := by decide
  have h3 : GRPC_TRANSPORT_SECURITY_TYPE_PROPERTY_NAME
      ≠ GRPC_X509_PEM_CERT_PROPERTY_NAME := by decide
  simp [shallowTranslate, h1, h2, h3]

/-- The peer-property names that survive the round trip through the auth
context: subject common name, subject alternative name, PEM cert. -/
def isX509RoundTripName (p : TsiPeerProperty) : Bool :=
  p.name == some TSI_X509_SUBJECT_COMMON_NAME_PEER_PROPERTY ||
  p.name == some TSI_X509_SUBJECT_ALTERNATIVE_NAME_PEER_PROPERTY ||
  p.name == some TSI_X509_PEM_CERT_PROPERTY

theorem filterMap_shallowTranslate_sslPeerAuthProps
    (props : List TsiPeerProperty) :
    (sslPeerAuthProps props).filterMap shallowTranslate
      = props.filter isX509RoundTripName := by
  induction props with
  | nil => rfl
  | cons p rest ih =>
    obtain ⟨pname, pvalue⟩ := p
    cases pname with
    | none =>
      rw [sslPeerAuthProps_cons_none, ih]
      have : isX509RoundTripName ⟨none, pvalue⟩ = false := by
        simp [isX509RoundTripName]
      rw [List.filter_cons, this]
      simp
    | some n =>
      rw [sslPeerAuthProps_cons_some]
      by_cases h1 : n = TSI_X509_SUBJECT_COMMON_NAME_PEER_PROPERTY
      · rw [if_pos h1, List.filterMap_cons, shallowTranslate_cn, ih,
          List.filter_cons]
        have : isX509RoundTripName ⟨some n, pvalue⟩ = true := by
          simp [isX509RoundTripName, h1]
        rw [this, h1]
        simp
      · by_cases h2 : n = TSI_X509_SUBJECT_ALTERNATIVE_NAME_PEER_PROPERTY
        · rw [if_neg h1, if_pos h2, List.filterMap_cons, shallowTranslate_san,
            ih, List.filter_cons]
          have : isX509RoundTripName ⟨some n, pvalue⟩ = true := by
            simp [isX509RoundTripName, h2]
          rw [this, h2]
          simp
        · by_cases h3 : n = TSI_X509_PEM_CERT_PROPERTY
          · rw [if_neg h1, if_neg h2, if_pos h3, List.filterMap_cons,
              shallowTranslate_pem, ih, List.filter_cons]
            have : isX509RoundTripName ⟨some n, pvalue⟩ = true := by
              simp [isX509RoundTripName, h3]
            rw [this, h3]
            simp
          · by_cases h4 : n = TSI_SSL_SESSION_REUSED_PEER_PROPERTY
            · rw [if_neg h1, if_neg h2, if_neg h3, if_pos h4,
                List.filterMap_cons, shallowTranslate_session, ih,
                List.filter_cons]
              have : isX509RoundTripName ⟨some n, pvalue⟩ = false := by
                simp [isX509RoundTripName, h1, h2, h3]
              rw [this]
              simp
            · rw [if_neg h1, if_neg h2, if_neg h3, if_neg h4, ih,
                List.filter_cons]
              have : isX509RoundTripName ⟨some n, pvalue⟩ = false := by
                simp [isX509RoundTripName, h1, h2, h3]
              rw [this]
              simp

/-! ## Claim theorems -/

/-- C1 counterexample: with an empty configured path and the override
callback reporting fail-permanently, the OS trust store (enabled,
yielding bytes 9) is still consulted and its non-empty bytes are
returned, even though the claim predicts empty bytes; the installed
fallback file (which would load bytes 66) is indeed skipped. -/
theorem computeRoots_failPermanently_osRoots_nonempty :
    ComputePemRootCerts
        ⟨false, "", fun _ => some [66], some .failPermanently, [9]⟩ = [9] ∧
    ComputePemRootCerts
        ⟨false, "", fun _ => some [66], some .failPermanently, [9]⟩ ≠ [] := by
  constructor
  · rfl
  · decide

/-- C1 amended: with an empty configured path and the override callback
reporting fail-permanently, the installed fallback file is never
consulted, so whenever the OS trust store is disabled or yields no
bytes, resolution yields empty bytes even though the installed fallback
file would have yielded non-empty bytes. -/
theorem computeRoots_failPermanently_skips_installed_fallback :
    ∀ env : RootsEnv,
      env.defaultRootsFilePath = "" →
      env.rootsOverrideCb = some RootsOverrideOutcome.failPermanently →
      (env.notUseSystemRoots = true ∨ env.systemRootCerts = []) →
      ComputePemRootCerts env = [] := by
  intro env h1 h2 h3
  have hs1 : rootsStep1 env = [] := by
    simp [rootsStep1, h1]
  have hs2 : rootsStep2 env = [] := by
    simp [rootsStep2, hs1, h2]
  have hov : rootsOvrdRes env = SslRootsOverrideResult.failPermanently := by
    simp [rootsOvrdRes, hs1, h2, overrideOutcomeEnum]
  have hs3 : rootsStep3 env = [] := by
    rcases h3 with h | h <;> simp [rootsStep3, hs2, h]
  simp [ComputePemRootCerts, hs3, hov]

/-- Witness for C1 amended: OS roots disabled, installed file would load
bytes 66, override reports fail-permanently; resolution is empty. -/
theorem computeRoots_failPermanently_skips_installed_fallback_witness :
    ComputePemRootCerts
        ⟨true, "", fun _ => some [66], some .failPermanently, [9]⟩ = [] :=
  computeRoots_failPermanently_skips_installed_fallback
    ⟨true, "", fun _ => some [66], some .failPermanently, [9]⟩
    rfl rfl (Or.inl rfl)

/-- C2: the four sources are tried in priority order — whenever an
earlier step produced non-empty bytes, the final result is exactly those
bytes (so no later step contributes); and in the specific scenario of an
empty configured path, no registered callback, OS roots enabled but
yielding nothing, and a readable installed fallback file, the result is
exactly the installed file's bytes. -/
theorem computeRoots_fallback_priority :
    ∀ (env : RootsEnv) (b : List Nat),
      (rootsStep1 env ≠ [] → ComputePemRootCerts env = rootsStep1 env) ∧
      (rootsStep2 env ≠ [] → ComputePemRootCerts env = rootsStep2 env) ∧
      (rootsStep3 env ≠ [] → ComputePemRootCerts env = rootsStep3 env) ∧
      (env.defaultRootsFilePath = "" → env.rootsOverrideCb = none →
        env.notUseSystemRoots = false → env.systemRootCerts = [] →
        env.loadFile installed_roots_path = some b →
        ComputePemRootCerts env = b) := by
  intro env b
  refine ⟨?_, ?_, ?_, ?_⟩
  · intro h
    have hs2 : rootsStep2 env = rootsStep1 env := by
      simp [rootsStep2, h]
    have hs3 : rootsStep3 env = rootsStep1 env := by
      rw [rootsStep3, hs2]
      simp [h]
    rw [ComputePemRootCerts, hs3]
    simp [h]
  · intro h
    have hs3 : rootsStep3 env = rootsStep2 env := by
      simp [rootsStep3, h]
    rw [ComputePemRootCerts, hs3]
    simp [h]
  · intro h
    simp [ComputePemRootCerts, h]
  · intro h1 h2 h3 h4 h5
    have hs1 : rootsStep1 env = [] := by
      simp [rootsStep1, h1]
    have hs2 : rootsStep2 env = [] := by
      simp [rootsStep2, hs1, h2]
    have hov : rootsOvrdRes env = SslRootsOverrideResult.fail := by
      simp [rootsOvrdRes, hs1, h2]
    have hs3 : rootsStep3 env = [] := by
      simp [rootsStep3, hs2, h3, h4]
    rw [ComputePemRootCerts, hs3, hov]
    simp [h5]

/-- Witness for C2: empty path, no callback, OS roots enabled but empty,
installed file containing byte 65; resolution yields exactly byte 65. -/
theorem computeRoots_fallback_priority_witness :
    ComputePemRootCerts
        ⟨false, "",
          fun p => if p = installed_roots_path then some [65] else none,
          none, []⟩ = [65] :=
  (computeRoots_fallback_priority
      ⟨false, "",
        fun p => if p = installed_roots_path then some [65] else none,
        none, []⟩ [65]).2.2.2
    rfl rfl rfl rfl (by simp)

/-- C3: `grpc_ssl_peer_to_auth_context` is a function of the ordered
peer-property list (determinism is immediate), a SAN property anywhere
in the list makes the SAN context name the designated identity (so
CN-then-SAN and SAN-then-CN both designate SAN), and a CN designation
can only arise when a CN property is present and no SAN property occurs
anywhere in the list. -/
theorem peer_to_auth_context_san_overrides_cn :
    ∀ peer : TsiPeer, peer.properties ≠ [] →
      ((∃ p ∈ peer.properties,
          p.name = some TSI_X509_SUBJECT_ALTERNATIVE_NAME_PEER_PROPERTY) →
        (grpc_ssl_peer_to_auth_context peer).peerIdentityPropertyName
          = some GRPC_X509_SAN_PROPERTY_NAME) ∧
      ((grpc_ssl_peer_to_auth_context peer).peerIdentityPropertyName
          = some GRPC_X509_CN_PROPERTY_NAME →
        (∃ p ∈ peer.properties,
          p.name = some TSI_X509_SUBJECT_COMMON_NAME_PEER_PROPERTY) ∧
        ¬ ∃ p ∈ peer.properties,
          p.name = some TSI_X509_SUBJECT_ALTERNATIVE_NAME_PEER_PROPERTY) := by
  intro peer _
  constructor
  · intro hsan
    exact sslPeerIdentity_san_mem peer.properties none hsan
  · intro hcn
    have hcn' : sslPeerIdentity peer.properties none
        = some GRPC_X509_CN_PROPERTY_NAME := hcn
    constructor
    · rcases sslPeerIdentity_cn_source peer.properties none hcn' with h | h
      · exact absurd h (by simp)
      · exact h
    · intro hsan
      have hsan' := sslPeerIdentity_san_mem peer.properties none hsan
      rw [hsan'] at hcn'
      exact absurd (Option.some.inj hcn') (by decide)

/-- Witness for C3: a peer with CN then SAN designates the SAN name. -/
theorem peer_to_auth_context_san_overrides_cn_witness :
    (grpc_ssl_peer_to_auth_context
        ⟨[⟨some TSI_X509_SUBJECT_COMMON_NAME_PEER_PROPERTY, [1]⟩,
          ⟨some TSI_X509_SUBJECT_ALTERNATIVE_NAME_PEER_PROPERTY, [2]⟩]⟩
      ).peerIdentityPropertyName = some GRPC_X509_SAN_PROPERTY_NAME :=
  (peer_to_auth_context_san_overrides_cn
      ⟨[⟨some TSI_X509_SUBJECT_COMMON_NAME_PEER_PROPERTY, [1]⟩,
        ⟨some TSI_X509_SUBJECT_ALTERNATIVE_NAME_PEER_PROPERTY, [2]⟩]⟩
      (by simp)).1
    ⟨⟨some TSI_X509_SUBJECT_ALTERNATIVE_NAME_PEER_PROPERTY, [2]⟩, by simp, rfl⟩

/-- C4: the round trip `grpc_shallow_peer_from_ssl_auth_context ∘
grpc_ssl_peer_to_auth_context` reproduces exactly the CN, SAN and
PEM-cert properties of the original peer, in order, with the same names
and value bytes; the session-reused property never appears in the
reconstructed peer. -/
theorem shallow_peer_roundtrip :
    ∀ peer : TsiPeer, peer.properties ≠ [] →
      (grpc_shallow_peer_from_ssl_auth_context
          (grpc_ssl_peer_to_auth_context peer)).properties
        = peer.properties.filter isX509RoundTripName ∧
      ∀ q ∈ (grpc_shallow_peer_from_ssl_auth_context
          (grpc_ssl_peer_to_auth_context peer)).properties,
        q.name ≠ some TSI_SSL_SESSION_REUSED_PEER_PROPERTY := by
  intro peer _
  have hmain : (grpc_shallow_peer_from_ssl_auth_context
      (grpc_ssl_peer_to_auth_context peer)).properties
      = peer.properties.filter isX509RoundTripName := by
    show (List.filterMap shallowTranslate
        (⟨GRPC_TRANSPORT_SECURITY_TYPE_PROPERTY_NAME,
          GRPC_SSL_TRANSPORT_SECURITY_TYPE⟩ ::
          sslPeerAuthProps peer.properties)) = _
    rw [List.filterMap_cons, shallowTranslate_transport]
    exact filterMap_shallowTranslate_sslPeerAuthProps peer.properties
  refine ⟨hmain, ?_⟩
  intro q hq hqname
  rw [hmain] at hq
  have hpred := (List.mem_filter.mp hq).2
  unfold isX509RoundTripName at hpred
  rw [hqname] at hpred
  exact absurd hpred (by decide)

/-- Witness for C4: a peer with a SAN property and a session-reused
property round-trips to exactly the SAN property. -/
theorem shallow_peer_roundtrip_witness :
    (grpc_shallow_peer_from_ssl_auth_context (grpc_ssl_peer_to_auth_context
        ⟨[⟨some TSI_X509_SUBJECT_ALTERNATIVE_NAME_PEER_PROPERTY, [2]⟩,
          ⟨some TSI_SSL_SESSION_REUSED_PEER_PROPERTY, [3]⟩]⟩)).properties
      = [⟨some TSI_X509_SUBJECT_ALTERNATIVE_NAME_PEER_PROPERTY, [2]⟩] := by
  rw [(shallow_peer_roundtrip
      ⟨[⟨some TSI_X509_SUBJECT_ALTERNATIVE_NAME_PEER_PROPERTY, [2]⟩,
        ⟨some TSI_SSL_SESSION_REUSED_PEER_PROPERTY, [3]⟩]⟩ (by simp)).1]
  decide

/-- C8 counterexample: the auth context built from a peer with one
unrecognized property holds exactly the transport-security-type marker
property; the counting pass sizes the array at 1 slot while the second
pass writes 0 entries, so the allocation is not exact. -/
theorem shallow_peer_alloc_overcounts :
    shallowPeerAllocSlots (grpc_ssl_peer_to_auth_context ⟨[⟨some "x", []⟩]⟩)
        = 1 ∧
    shallowPeerWrittenCount (grpc_ssl_peer_to_auth_context ⟨[⟨some "x", []⟩]⟩)
        = 0 := by
  decide

/-- C8 amended: the counting pass computes an upper bound — the number
of entries the second pass writes never exceeds the number of slots
allocated, but equality can fail (strictly fewer entries are written
whenever the context holds a property other than SAN/CN/PEM-cert). -/
theorem shallow_peer_written_le_alloc :
    ∀ ctx : AuthContext,
      shallowPeerWrittenCount ctx ≤ shallowPeerAllocSlots ctx := by
  intro ctx
  exact List.length_filterMap_le shallowTranslate ctx.properties

/-- C5: `grpc_ssl_check_call_host` returns `true` for every input; a
failed check is visible only through the error out-parameter, which is
written exactly when neither the certificate match nor the
overridden-target-name escape hatch yields a security status of OK. -/
theorem check_call_host_always_returns_true :
    ∀ (matchFn : TsiPeer → List Char → Bool)
      (host targetName overriddenTargetName : List Char)
      (ctx : AuthContext),
      (grpc_ssl_check_call_host matchFn host targetName
          overriddenTargetName ctx).1 = true ∧
      ((grpc_ssl_check_call_host matchFn host targetName
          overriddenTargetName ctx).2 = none ↔
        (grpc_ssl_host_matches_name matchFn
            (grpc_shallow_peer_from_ssl_auth_context ctx) host = true ∨
          (overriddenTargetName ≠ [] ∧ host = targetName))) := by
  intro matchFn host targetName overriddenTargetName ctx
  constructor
  · rfl
  · unfold grpc_ssl_check_call_host
    by_cases hm : grpc_ssl_host_matches_name matchFn
        (grpc_shallow_peer_from_ssl_auth_context ctx) host
      <;> by_cases ho : overriddenTargetName ≠ [] ∧ host = targetName
      <;> simp [hm, ho]

/-- C9: whenever the overridden target name is non-empty and the
requested host equals the target name, no error is written, regardless
of the engine's certificate-matching verdict on the peer derived from
the auth context — the override bypasses certificate matching. -/
theorem check_call_host_override_bypass :
    ∀ (matchFn : TsiPeer → List Char → Bool)
      (host targetName overriddenTargetName : List Char)
      (ctx : AuthContext),
      overriddenTargetName ≠ [] → host = targetName →
      (grpc_ssl_check_call_host matchFn host targetName
          overriddenTargetName ctx).2 = none := by
  intro matchFn host targetName overriddenTargetName ctx h1 h2
  unfold grpc_ssl_check_call_host
  simp [h1, h2]

/-- Witness for C9: the engine matcher rejects everything, yet with
override name "b" and host = target = "a" no error is written. -/
theorem check_call_host_override_bypass_witness :
    (grpc_ssl_check_call_host (fun _ _ => false) ['a'] ['a'] ['b']
        ⟨[], none⟩).2 = none :=
  check_call_host_override_bypass (fun _ _ => false) ['a'] ['a'] ['b']
    ⟨[], none⟩ (by simp) rfl

/-- C7 counterexample: for the requested name "%x" the host produced by
port-splitting is "%x" (non-empty), so the code does NOT return false;
it strips the zone id afterwards and asks the engine about the empty
host, returning the engine's verdict (here true), while the claim's
reading — empty check after both split and truncation — returns false. -/
theorem host_matches_name_empty_check_order :
    grpc_ssl_host_matches_name (fun _ _ => true) ⟨[]⟩ ['%', 'x'] = true ∧
    hostMatchesPeerNameSpec (fun _ _ => true) ⟨[]⟩ ['%', 'x'] = false :=
  ⟨rfl, rfl⟩

/-- C7 amended: `grpc_ssl_host_matches_name` first splits off a trailing
port, returns false when the host produced by the SPLIT ALONE is empty,
and otherwise returns exactly the engine's verdict on the split host
truncated at the first percent character (which may be empty when the
split host begins with a percent); in particular the name
"[::1%eth0]:443" is compared using only "::1". -/
theorem host_matches_name_amended :
    ∀ (matchFn : TsiPeer → List Char → Bool) (peer : TsiPeer)
      (peerName : List Char),
      ((SplitHostPort peerName).1 = [] →
        grpc_ssl_host_matches_name matchFn peer peerName = false) ∧
      ((SplitHostPort peerName).1 ≠ [] →
        grpc_ssl_host_matches_name matchFn peer peerName
          = matchFn peer
              ((SplitHostPort peerName).1.takeWhile (fun ch => ch ≠ '%'))) ∧
      grpc_ssl_host_matches_name matchFn peer ("[::1%eth0]:443".toList)
        = matchFn peer ("::1".toList) := by
  intro matchFn peer peerName
  refine ⟨?_, ?_, ?_⟩
  · intro h
    unfold grpc_ssl_host_matches_name
    simp [h]
  · intro h
    unfold grpc_ssl_host_matches_name
    simp [h]
  · rfl

/-- Witness for C7 amended: an engine that accepts exactly "::1" accepts
the requested name "[::1%eth0]:443". -/
theorem host_matches_name_amended_witness :
    grpc_ssl_host_matches_name
        (fun _ h => decide (h = [':', ':', '1'])) ⟨[]⟩
        ("[::1%eth0]:443".toList) = true := by
  rw [(host_matches_name_amended
      (fun _ h => decide (h = [':', ':', '1'])) ⟨[]⟩
      ("[::1%eth0]:443".toList)).2.1 (by decide)]
  decide

/-- C10: `grpc_ssl_check_alpn` reports no error for every peer; it never
inspects the peer at all. -/
theorem check_alpn_no_error :
    ∀ peer : TsiPeer, grpc_ssl_check_alpn peer = none := fun _ => rfl

/-- C6: in the client handshaker-factory builder, when no explicit root
PEM is supplied and the process-default roots resolve to empty, the call
returns an error status with the engine never invoked (so no factory is
produced); when an explicit root PEM is supplied, the result does not
depend on the default-root environment at all and the options handed to
the engine carry exactly the supplied PEM. -/
theorem client_factory_init_roots :
    ∀ (env env2 : RootsEnv) (engine : ClientHandshakerOptions → TsiResult)
      (alpn : List String) (cs : String) (kp : Option SslPemKeyCertPair)
      (cache : Option Nat) (pem : List Nat),
      (ComputePemRootCerts env = [] →
        grpc_ssl_tsi_client_handshaker_factory_init env engine alpn cs kp
            none cache = (GrpcSecurityStatus.error, none)) ∧
      (grpc_ssl_tsi_client_handshaker_factory_init env engine alpn cs kp
          (some pem) cache
        = grpc_ssl_tsi_client_handshaker_factory_init env2 engine alpn cs kp
            (some pem) cache) ∧
      ((grpc_ssl_tsi_client_handshaker_factory_init env engine alpn cs kp
          (some pem) cache).2.map ClientHandshakerOptions.pemRootCerts
        = some pem) := by
  intro env env2 engine alpn cs kp cache pem
  refine ⟨?_, ?_, ?_⟩
  · intro h
    unfold grpc_ssl_tsi_client_handshaker_factory_init
    simp [GetPemRootCerts, h]
  · rfl
  · unfold grpc_ssl_tsi_client_handshaker_factory_init
    by_cases h : engine
        { pemRootCerts := pem
          rootStore := none
          alpnProtocols := alpn
          pemKeyCertPair :=
            if (match kp with
                | some p => p.privateKey.isSome && p.certChain.isSome
                | none => false) = true then kp else none
          cipherSuites := cs
          sessionCache := cache } = TsiResult.ok
      <;> simp [h]

/-- Witness for C6: with empty path, no callback, OS roots disabled and
every file load failing, default resolution is empty and the client
factory init fails with an error status, never invoking the engine. -/
theorem client_factory_init_roots_witness :
    grpc_ssl_tsi_client_handshaker_factory_init
        ⟨true, "", fun _ => none, none, []⟩ (fun _ => TsiResult.ok) [] ""
        none none none = (GrpcSecurityStatus.error, none) :=
  (client_factory_init_roots ⟨true, "", fun _ => none, none, []⟩
      ⟨true, "", fun _ => none, none, []⟩ (fun _ => TsiResult.ok) [] ""
      none none []).1 rfl
